import Mathlib

/-!
Shallow embedding of the rock physics simulation (src/game.js).

The simulation keeps a list of rocks; each frame, `updatePhysics` applies
gravity, air resistance, Euler integration, rotation, wall bounces and a
pairwise collision pass (inner loop over indices j > i) to every rock,
reading and writing the list in place. Randomness (Math.random) and the
clock (Date.now) are modelled as explicit real-valued parameters, and
JavaScript numbers are modelled as real numbers.
-/

namespace RockSim

noncomputable section

/-- The four material kinds of the `ROCK_TYPES` catalog (game.js lines 20-25). -/
inductive RockType
  | granite
  | marble
  | obsidian
  | sandstone
  deriving DecidableEq

/-- Catalog entry: display color, density, bounce (restitution). -/
structure RockProps where
  color : String
  density : ℝ
  bounce : ℝ

/-- The material catalog `ROCK_TYPES` (game.js lines 20-25). -/
def ROCK_TYPES : RockType → RockProps
  | .granite => ⟨"#8B7355", 1.2, 0.6⟩
  | .marble => ⟨"#F5F5DC", 1.0, 0.7⟩
  | .obsidian => ⟨"#36454F", 1.5, 0.5⟩
  | .sandstone => ⟨"#FAD5A5", 0.8, 0.8⟩

/-- A rock body (the `Rock` interface, game.js lines 6-18). -/
structure Rock where
  id : ℝ
  x : ℝ
  y : ℝ
  vx : ℝ
  vy : ℝ
  radius : ℝ
  color : String
  rotation : ℝ
  rotationSpeed : ℝ
  mass : ℝ
  type : RockType

instance : Inhabited Rock :=
  ⟨⟨0, 0, 0, 0, 0, 0, "", 0, 0, 0, .granite⟩⟩

/-- Key order of `Object.keys(ROCK_TYPES)` (game.js line 36). -/
def typesList : List RockType :=
  [.granite, .marble, .obsidian, .sandstone]

/-- The rock built by `createRock` (game.js lines 35-52): `now` models
`Date.now()`, `r0` the `Math.random()` term of the id, `r1` the material
draw, `r2` the radius draw, `r3` the rotation-speed draw. -/
def createRock (now r0 r1 r2 r3 x y vx vy : ℝ) : Rock :=
  let type := typesList.getD (⌊r1 * (typesList.length : ℝ)⌋).toNat .granite
  let radius := 15 + r2 * 25
  { id := now + r0
    x := x
    y := y
    vx := vx
    vy := vy
    radius := radius
    color := (ROCK_TYPES type).color
    rotation := 0
    rotationSpeed := (r3 - 0.5) * 0.1
    mass := radius * (ROCK_TYPES type).density
    type := type }

/-- Simulation state: the rock list (`rocksRef`) and the play flag (`isPlaying`). -/
structure SimState where
  rocks : List Rock
  isPlaying : Bool

/-- The state before any rocks are spawned. -/
def initialState : SimState :=
  { rocks := [], isPlaying := true }

/-- The push of the created rock (game.js line 54): append to the collection. -/
def spawn (now r0 r1 r2 r3 x y vx vy : ℝ) (s : SimState) : SimState :=
  { s with rocks := s.rocks ++ [createRock now r0 r1 r2 r3 x y vx vy] }

/-- The `clearRocks` handler (game.js lines 254-257). -/
def clearRocks (s : SimState) : SimState :=
  { s with rocks := [] }

/-- The rock counter read by the UI (`rockCount`, kept equal to the length). -/
def count (s : SimState) : ℕ :=
  s.rocks.length

/-- The play/pause flag setter (`setIsPlaying`). -/
def setRunning (b : Bool) (s : SimState) : SimState :=
  { s with isPlaying := b }

/-- Gravity constant (game.js line 62). -/
def gravity : ℝ := 0.5

/-- Floor friction constant (game.js line 63). -/
def friction : ℝ := 0.98

/-- Air resistance constant (game.js line 64). -/
def airResistance : ℝ := 0.999

/-- Gravity and air resistance (game.js lines 67-72): `vy += gravity`,
then both components scaled by `airResistance`. -/
def applyForces (rock : Rock) : Rock :=
  let vy1 := rock.vy + gravity
  { rock with vx := rock.vx * airResistance, vy := vy1 * airResistance }

/-- Position and rotation integration (game.js lines 74-79). -/
def integrate (rock : Rock) : Rock :=
  { rock with
    x := rock.x + rock.vx
    y := rock.y + rock.vy
    rotation := rock.rotation + rock.rotationSpeed }

/-- Left wall bounce (game.js lines 82-86). -/
def bounceLeft (rock : Rock) : Rock :=
  if rock.x - rock.radius < 0 then
    { rock with
      x := rock.radius
      vx := -rock.vx * (ROCK_TYPES rock.type).bounce
      rotationSpeed := rock.rotationSpeed * (-0.5) }
  else rock

/-- Right wall bounce (game.js lines 87-91). -/
def bounceRight (width : ℝ) (rock : Rock) : Rock :=
  if rock.x + rock.radius > width then
    { rock with
      x := width - rock.radius
      vx := -rock.vx * (ROCK_TYPES rock.type).bounce
      rotationSpeed := rock.rotationSpeed * (-0.5) }
  else rock

/-- Ceiling bounce (game.js lines 94-97). -/
def bounceTop (rock : Rock) : Rock :=
  if rock.y - rock.radius < 0 then
    { rock with
      y := rock.radius
      vy := -rock.vy * (ROCK_TYPES rock.type).bounce }
  else rock

/-- Floor bounce with friction and rotation damping (game.js lines 98-103). -/
def bounceBottom (height : ℝ) (rock : Rock) : Rock :=
  if rock.y + rock.radius > height then
    { rock with
      y := height - rock.radius
      vy := -rock.vy * (ROCK_TYPES rock.type).bounce
      vx := rock.vx * friction
      rotationSpeed := rock.rotationSpeed * 0.9 }
  else rock

/-- The whole single-body phase of one frame for one rock, in source order
(game.js lines 66-103): forces, integration, left, right, top, bottom. -/
def moveRock (width height : ℝ) (rock : Rock) : Rock :=
  bounceBottom height (bounceTop (bounceRight width (bounceLeft (integrate (applyForces rock)))))

/-- `Math.atan2 y x`, modelled as the argument of the complex number x + y i. -/
def atan2 (y x : ℝ) : ℝ :=
  Complex.arg ⟨x, y⟩

/-- Resolution of one rock pair (game.js lines 108-136): positional
separation along the center line, then the per-component mass-weighted
velocity exchange scaled by 0.8, applied only when the circles overlap. -/
def collidePair (rock other : Rock) : Rock × Rock :=
  let dx := other.x - rock.x
  let dy := other.y - rock.y
  let distance := Real.sqrt (dx * dx + dy * dy)
  let minDistance := rock.radius + other.radius
  if distance < minDistance then
    let angle := atan2 dy dx
    let overlap := minDistance - distance
    let separationX := Real.cos angle * overlap * 0.5
    let separationY := Real.sin angle * overlap * 0.5
    let totalMass := rock.mass + other.mass
    let rockNewVx := (rock.vx * (rock.mass - other.mass) + 2 * other.mass * other.vx) / totalMass
    let rockNewVy := (rock.vy * (rock.mass - other.mass) + 2 * other.mass * other.vy) / totalMass
    let otherNewVx := (other.vx * (other.mass - rock.mass) + 2 * rock.mass * rock.vx) / totalMass
    let otherNewVy := (other.vy * (other.mass - rock.mass) + 2 * rock.mass * rock.vy) / totalMass
    ({ rock with
        x := rock.x - separationX
        y := rock.y - separationY
        vx := rockNewVx * 0.8
        vy := rockNewVy * 0.8 },
     { other with
        x := other.x + separationX
        y := other.y + separationY
        vx := otherNewVx * 0.8
        vy := otherNewVy * 0.8 })
  else (rock, other)

/-- One inner-loop iteration (game.js lines 106-137): read slots i and j,
resolve the pair, write both slots back. -/
def collideWith (i : ℕ) (rocks : List Rock) (j : ℕ) : List Rock :=
  match rocks.get? i, rocks.get? j with
  | some rock, some other =>
    let p := collidePair rock other
    (rocks.set i p.1).set j p.2
  | _, _ => rocks

/-- In-place single-body update of slot i. -/
def moveAt (width height : ℝ) (rocks : List Rock) (i : ℕ) : List Rock :=
  match rocks.get? i with
  | some rock => rocks.set i (moveRock width height rock)
  | none => rocks

/-- The indices visited by the inner collision loop for outer index i over a
collection of length n: `for (let j = index + 1; j < length; j++)`. -/
def pairsFor (i n : ℕ) : List ℕ :=
  List.range' (i + 1) (n - (i + 1))

/-- One frame of `updatePhysics` (game.js lines 58-139): for each index in
order, the single-body phase, then the inner collision loop over the
already-updated list. -/
def updatePhysics (width height : ℝ) (rocks : List Rock) : List Rock :=
  (List.range rocks.length).foldl
    (fun acc index =>
      let acc1 := moveAt width height acc index
      (pairsFor index acc1.length).foldl (collideWith index) acc1)
    rocks

/-- One animation frame's physics (game.js lines 195-197): `updatePhysics`
runs only while `isPlaying`. -/
def step (width height : ℝ) (s : SimState) : SimState :=
  if s.isPlaying then { s with rocks := updatePhysics width height s.rocks } else s

/-- All ordered index pairs (i, j) visited by the nested collision loops of
one frame over a collection of length n, in visit order. -/
def pairsVisited (n : ℕ) : List (ℕ × ℕ) :=
  (List.range n).flatMap (fun i => (pairsFor i n).map (fun j => (i, j)))

/-- Lexicographic (visit) order on index pairs. -/
def pairLex (p q : ℕ × ℕ) : Prop :=
  p.1 < q.1 ∨ (p.1 = q.1 ∧ p.2 < q.2)

/-- Translational kinetic energy of a rock, one half mass times speed squared. -/
def kineticEnergy (rock : Rock) : ℝ :=
  0.5 * rock.mass * (rock.vx * rock.vx + rock.vy * rock.vy)

end

lemma updatePhysics_nil (w h : ℝ) : updatePhysics w h [] = [] := rfl

lemma step_paused (w h : ℝ) (s : SimState) (hs : s.isPlaying = false) :
    step w h s = s := by
  simp [step, hs]

lemma step_cleared (w h : ℝ) (s : SimState) :
    step w h (clearRocks s) = clearRocks s := by
  cases hb : s.isPlaying <;> simp [step, clearRocks, hb, updatePhysics_nil]

lemma getD_typesList_mem (k : ℕ) : typesList.getD k .granite ∈ typesList := by
  match k with
  | 0 => simp [typesList]
  | 1 => simp [typesList]
  | 2 => simp [typesList]
  | 3 => simp [typesList]
  | n + 4 => simp [typesList, List.getD]

/-- Claim C5: when the simulation is paused via setRunning false, any number
of subsequent step calls leaves the whole state, in particular every rock's
position, velocity, radius, rotation, rotation speed, mass, material and id,
exactly unchanged. -/
theorem C5_pause_freezes (w h : ℝ) (s : SimState) (n : ℕ) :
    (step w h)^[n] (setRunning false s) = setRunning false s ∧
    ((step w h)^[n] (setRunning false s)).rocks = s.rocks := by
  have hfix : (step w h)^[n] (setRunning false s) = setRunning false s :=
    Function.iterate_fixed (step_paused w h _ rfl) n
  exact ⟨hfix, by rw [hfix]; rfl⟩

/-- Claim C8: after clear, count returns 0, and every subsequent step on the
empty collection is a no-op (in particular it cannot fail or divide by
zero, being the identity on the state). -/
theorem C8_clear_then_steps_noop (w h : ℝ) (s : SimState) (n : ℕ) :
    count (clearRocks s) = 0 ∧ (step w h)^[n] (clearRocks s) = clearRocks s :=
  ⟨rfl, Function.iterate_fixed (step_cleared w h s) n⟩

/-- Claim C3: every spawn succeeds and appends exactly one rock, whose radius
lies in [15, 40), whose material is drawn from the four-entry catalog by a
valid index, whose mass is radius times the material density, and whose
rotation speed lies in [-0.05, 0.05]. -/
theorem C3_spawn_properties (s : SimState) (now r0 r1 r2 r3 x y vx vy : ℝ)
    (h1 : 0 ≤ r1) (h2 : r1 < 1) (h3 : 0 ≤ r2) (h4 : r2 < 1)
    (h5 : 0 ≤ r3) (h6 : r3 < 1) :
    (spawn now r0 r1 r2 r3 x y vx vy s).rocks
      = s.rocks ++ [createRock now r0 r1 r2 r3 x y vx vy] ∧
    count (spawn now r0 r1 r2 r3 x y vx vy s) = count s + 1 ∧
    15 ≤ (createRock now r0 r1 r2 r3 x y vx vy).radius ∧
    (createRock now r0 r1 r2 r3 x y vx vy).radius < 40 ∧
    (⌊r1 * (typesList.length : ℝ)⌋).toNat < typesList.length ∧
    (createRock now r0 r1 r2 r3 x y vx vy).type ∈ typesList ∧
    (createRock now r0 r1 r2 r3 x y vx vy).mass
      = (createRock now r0 r1 r2 r3 x y vx vy).radius
          * (ROCK_TYPES (createRock now r0 r1 r2 r3 x y vx vy).type).density ∧
    -0.05 ≤ (createRock now r0 r1 r2 r3 x y vx vy).rotationSpeed ∧
    (createRock now r0 r1 r2 r3 x y vx vy).rotationSpeed ≤ 0.05 := by
  have hlen : ((typesList.length : ℕ) : ℝ) = 4 := by norm_num [typesList]
  have hflo : ⌊r1 * (typesList.length : ℝ)⌋ < 4 := by
    apply Int.floor_lt.mpr
    rw [hlen]
    push_cast
    nlinarith
  have hfges : (0 : ℤ) ≤ ⌊r1 * (typesList.length : ℝ)⌋ :=
    Int.floor_nonneg.mpr (mul_nonneg h1 (by positivity))
  refine ⟨rfl, by simp [count, spawn], ?_, ?_, ?_, ?_, rfl, ?_, ?_⟩
  · simp only [createRock]
    nlinarith
  · simp only [createRock]
    nlinarith
  · simp only [show typesList.length = 4 from rfl] at hflo hfges ⊢
    omega
  · simp only [createRock]
    exact getD_typesList_mem _
  · simp only [createRock]
    nlinarith
  · simp only [createRock]
    nlinarith

/-- Witness for C3 at concrete spawn draws. -/
theorem C3_spawn_properties_witness :
    15 ≤ (createRock 0 0 0.5 0.5 0.5 0 0 0 0).radius :=
  (C3_spawn_properties initialState 0 0 0.5 0.5 0.5 0 0 0 0
    (by norm_num) (by norm_num) (by norm_num) (by norm_num)
    (by norm_num) (by norm_num)).2.2.1

lemma bounce_nonneg (t : RockType) : 0 ≤ (ROCK_TYPES t).bounce := by
  cases t <;> norm_num [ROCK_TYPES]

lemma bounce_le_one (t : RockType) : (ROCK_TYPES t).bounce ≤ 1 := by
  cases t <;> norm_num [ROCK_TYPES]

lemma bounce_sq_le_one (t : RockType) :
    (ROCK_TYPES t).bounce * (ROCK_TYPES t).bounce ≤ 1 := by
  have h1 := bounce_nonneg t
  have h2 := bounce_le_one t
  nlinarith

lemma ke_bounceLeft (r : Rock) (hm : 0 ≤ r.mass) :
    kineticEnergy (bounceLeft r) ≤ kineticEnergy r := by
  unfold bounceLeft kineticEnergy
  split_ifs with hc
  · simp only
    have hb := bounce_sq_le_one r.type
    nlinarith [mul_nonneg (mul_nonneg hm (mul_self_nonneg r.vx))
      (sub_nonneg.mpr hb)]
  · exact le_refl _

lemma ke_bounceRight (w : ℝ) (r : Rock) (hm : 0 ≤ r.mass) :
    kineticEnergy (bounceRight w r) ≤ kineticEnergy r := by
  unfold bounceRight kineticEnergy
  split_ifs with hc
  · simp only
    have hb := bounce_sq_le_one r.type
    nlinarith [mul_nonneg (mul_nonneg hm (mul_self_nonneg r.vx))
      (sub_nonneg.mpr hb)]
  · exact le_refl _

lemma ke_bounceTop (r : Rock) (hm : 0 ≤ r.mass) :
    kineticEnergy (bounceTop r) ≤ kineticEnergy r := by
  unfold bounceTop kineticEnergy
  split_ifs with hc
  · simp only
    have hb := bounce_sq_le_one r.type
    nlinarith [mul_nonneg (mul_nonneg hm (mul_self_nonneg r.vy))
      (sub_nonneg.mpr hb)]
  · exact le_refl _

lemma ke_bounceBottom (h : ℝ) (r : Rock) (hm : 0 ≤ r.mass) :
    kineticEnergy (bounceBottom h r) ≤ kineticEnergy r := by
  unfold bounceBottom kineticEnergy friction
  split_ifs with hc
  · simp only
    have hb := bounce_sq_le_one r.type
    nlinarith [mul_nonneg (mul_nonneg hm (mul_self_nonneg r.vy))
        (sub_nonneg.mpr hb),
      mul_nonneg hm (mul_self_nonneg r.vx)]
  · exact le_refl _

lemma elastic_component (m1 m2 v1 v2 : ℝ) (h1 : 0 < m1) (h2 : 0 < m2) :
    m1 * ((v1 * (m1 - m2) + 2 * m2 * v2) / (m1 + m2) * 0.8
        * ((v1 * (m1 - m2) + 2 * m2 * v2) / (m1 + m2) * 0.8))
      + m2 * ((v2 * (m2 - m1) + 2 * m1 * v1) / (m1 + m2) * 0.8
        * ((v2 * (m2 - m1) + 2 * m1 * v1) / (m1 + m2) * 0.8))
      = 0.64 * (m1 * (v1 * v1) + m2 * (v2 * v2)) := by
  have hM : m1 + m2 ≠ 0 := by positivity
  field_simp
  ring

lemma momentum_component (m1 m2 v1 v2 : ℝ) (hM : m1 + m2 ≠ 0) :
    m1 * ((v1 * (m1 - m2) + 2 * m2 * v2) / (m1 + m2) * 0.8)
      + m2 * ((v2 * (m2 - m1) + 2 * m1 * v1) / (m1 + m2) * 0.8)
      = 0.8 * (m1 * v1 + m2 * v2) := by
  field_simp
  ring

lemma collidePair_of_overlap (a b : Rock)
    (hc : Real.sqrt ((b.x - a.x) * (b.x - a.x) + (b.y - a.y) * (b.y - a.y))
      < a.radius + b.radius) :
    collidePair a b =
      ({ a with
          x := a.x - Real.cos (atan2 (b.y - a.y) (b.x - a.x))
            * (a.radius + b.radius
              - Real.sqrt ((b.x - a.x) * (b.x - a.x) + (b.y - a.y) * (b.y - a.y))) * 0.5
          y := a.y - Real.sin (atan2 (b.y - a.y) (b.x - a.x))
            * (a.radius + b.radius
              - Real.sqrt ((b.x - a.x) * (b.x - a.x) + (b.y - a.y) * (b.y - a.y))) * 0.5
          vx := (a.vx * (a.mass - b.mass) + 2 * b.mass * b.vx) / (a.mass + b.mass) * 0.8
          vy := (a.vy * (a.mass - b.mass) + 2 * b.mass * b.vy) / (a.mass + b.mass) * 0.8 },
       { b with
          x := b.x + Real.cos (atan2 (b.y - a.y) (b.x - a.x))
            * (a.radius + b.radius
              - Real.sqrt ((b.x - a.x) * (b.x - a.x) + (b.y - a.y) * (b.y - a.y))) * 0.5
          y := b.y + Real.sin (atan2 (b.y - a.y) (b.x - a.x))
            * (a.radius + b.radius
              - Real.sqrt ((b.x - a.x) * (b.x - a.x) + (b.y - a.y) * (b.y - a.y))) * 0.5
          vx := (b.vx * (b.mass - a.mass) + 2 * a.mass * a.vx) / (a.mass + b.mass) * 0.8
          vy := (b.vy * (b.mass - a.mass) + 2 * a.mass * a.vy) / (a.mass + b.mass) * 0.8 }) := by
  simp only [collidePair]
  rw [if_pos hc]

lemma collidePair_of_apart (a b : Rock)
    (hc : ¬ Real.sqrt ((b.x - a.x) * (b.x - a.x) + (b.y - a.y) * (b.y - a.y))
      < a.radius + b.radius) :
    collidePair a b = (a, b) := by
  simp only [collidePair]
  rw [if_neg hc]

/-- Claim C2: each wall collision response and each pairwise collision
response leaves the combined kinetic energy of the involved bodies no larger
than before it. -/
theorem C2_energy_nonincreasing (w h : ℝ) (r a b : Rock)
    (hm : 0 ≤ r.mass) (ha : 0 < a.mass) (hb : 0 < b.mass) :
    kineticEnergy (bounceLeft r) ≤ kineticEnergy r ∧
    kineticEnergy (bounceRight w r) ≤ kineticEnergy r ∧
    kineticEnergy (bounceTop r) ≤ kineticEnergy r ∧
    kineticEnergy (bounceBottom h r) ≤ kineticEnergy r ∧
    kineticEnergy (collidePair a b).1 + kineticEnergy (collidePair a b).2
      ≤ kineticEnergy a + kineticEnergy b := by
  refine ⟨ke_bounceLeft r hm, ke_bounceRight w r hm, ke_bounceTop r hm,
    ke_bounceBottom h r hm, ?_⟩
  by_cases hc : Real.sqrt ((b.x - a.x) * (b.x - a.x) + (b.y - a.y) * (b.y - a.y))
      < a.radius + b.radius
  · rw [collidePair_of_overlap a b hc]
    unfold kineticEnergy
    simp only
    nlinarith [elastic_component a.mass b.mass a.vx b.vx ha hb,
      elastic_component a.mass b.mass a.vy b.vy ha hb,
      mul_nonneg ha.le (mul_self_nonneg a.vx),
      mul_nonneg hb.le (mul_self_nonneg b.vx),
      mul_nonneg ha.le (mul_self_nonneg a.vy),
      mul_nonneg hb.le (mul_self_nonneg b.vy)]
  · rw [collidePair_of_apart a b hc]

/-- Claim C10: when a pair actually collides, the velocity response scales
the pair's combined momentum by exactly 0.8, componentwise. -/
theorem C10_momentum_scaled (a b : Rock) (ha : 0 < a.mass) (hb : 0 < b.mass)
    (hc : Real.sqrt ((b.x - a.x) * (b.x - a.x) + (b.y - a.y) * (b.y - a.y))
      < a.radius + b.radius) :
    (collidePair a b).1.mass * (collidePair a b).1.vx
        + (collidePair a b).2.mass * (collidePair a b).2.vx
      = 0.8 * (a.mass * a.vx + b.mass * b.vx) ∧
    (collidePair a b).1.mass * (collidePair a b).1.vy
        + (collidePair a b).2.mass * (collidePair a b).2.vy
      = 0.8 * (a.mass * a.vy + b.mass * b.vy) := by
  have hM : a.mass + b.mass ≠ 0 := by positivity
  rw [collidePair_of_overlap a b hc]
  exact ⟨momentum_component a.mass b.mass a.vx b.vx hM,
    momentum_component a.mass b.mass a.vy b.vy hM⟩

lemma atan2_zero_of_nonneg (x : ℝ) (hx : 0 ≤ x) : atan2 0 x = 0 := by
  unfold atan2
  have hmk : (⟨x, 0⟩ : ℂ) = (x : ℂ) := rfl
  rw [hmk]
  exact Complex.arg_ofReal_of_nonneg hx

/-- Claim C4: for two rocks with exactly coinciding centers, the pair
resolution divides only by the (nonzero) total mass, separates the two
centers along the positive x-axis, and assigns the well-defined real values
of the velocity-exchange formulas. -/
theorem C4_zero_distance_guarded (a b : Rock) (hx : b.x = a.x) (hy : b.y = a.y)
    (hra : 0 < a.radius) (hrb : 0 < b.radius)
    (hma : 0 < a.mass) (hmb : 0 < b.mass) :
    a.mass + b.mass ≠ 0 ∧
    (collidePair a b).1.x = a.x - (a.radius + b.radius) * 0.5 ∧
    (collidePair a b).1.y = a.y ∧
    (collidePair a b).2.x = a.x + (a.radius + b.radius) * 0.5 ∧
    (collidePair a b).2.y = a.y ∧
    (collidePair a b).1.vx
      = (a.vx * (a.mass - b.mass) + 2 * b.mass * b.vx) / (a.mass + b.mass) * 0.8 ∧
    (collidePair a b).1.vy
      = (a.vy * (a.mass - b.mass) + 2 * b.mass * b.vy) / (a.mass + b.mass) * 0.8 ∧
    (collidePair a b).2.vx
      = (b.vx * (b.mass - a.mass) + 2 * a.mass * a.vx) / (a.mass + b.mass) * 0.8 ∧
    (collidePair a b).2.vy
      = (b.vy * (b.mass - a.mass) + 2 * a.mass * a.vy) / (a.mass + b.mass) * 0.8 := by
  have hM : a.mass + b.mass ≠ 0 := by positivity
  have hzero : Real.sqrt ((b.x - a.x) * (b.x - a.x) + (b.y - a.y) * (b.y - a.y)) = 0 := by
    rw [hx, hy]
    simp [Real.sqrt_zero]
  have hc : Real.sqrt ((b.x - a.x) * (b.x - a.x) + (b.y - a.y) * (b.y - a.y))
      < a.radius + b.radius := by
    rw [hzero]
    linarith
  rw [collidePair_of_overlap a b hc]
  have hdy : b.y - a.y = 0 := by rw [hy]; ring
  have hdx : b.x - a.x = 0 := by rw [hx]; ring
  have hang : atan2 (b.y - a.y) (b.x - a.x) = 0 := by
    rw [hdy, hdx]
    exact atan2_zero_of_nonneg 0 le_rfl
  refine ⟨hM, ?_, ?_, ?_, ?_, rfl, rfl, rfl, rfl⟩ <;>
  · simp only [hx, hy, sub_self, atan2_zero_of_nonneg 0 le_rfl, Real.cos_zero,
      Real.sin_zero, mul_zero, zero_mul, add_zero, zero_add, Real.sqrt_zero]
    try ring

/-- A concrete granite rock used to instantiate hypotheses in witnesses. -/
def sampleA : Rock :=
  ⟨1, 100, 100, 0, 0, 20, "#8B7355", 0, 0, 24, .granite⟩

/-- A concrete marble rock whose center coincides with sampleA's. -/
def sampleB : Rock :=
  ⟨2, 100, 100, 3, -2, 20, "#F5F5DC", 0, 0, 20, .marble⟩

/-- Witness for C2 at concrete rocks with positive mass. -/
theorem C2_energy_nonincreasing_witness :
    kineticEnergy (bounceLeft sampleA) ≤ kineticEnergy sampleA :=
  (C2_energy_nonincreasing 400 300 sampleA sampleA sampleB
    (by norm_num [sampleA]) (by norm_num [sampleA]) (by norm_num [sampleB])).1

/-- Witness for C10 at concrete overlapping rocks. -/
theorem C10_momentum_scaled_witness :
    (collidePair sampleA sampleB).1.mass * (collidePair sampleA sampleB).1.vx
        + (collidePair sampleA sampleB).2.mass * (collidePair sampleA sampleB).2.vx
      = 0.8 * (sampleA.mass * sampleA.vx + sampleB.mass * sampleB.vx) :=
  (C10_momentum_scaled sampleA sampleB (by norm_num [sampleA]) (by norm_num [sampleB])
    (by norm_num [sampleA, sampleB, Real.sqrt_zero])).1

/-- Witness for C4 at concrete rocks with coinciding centers. -/
theorem C4_zero_distance_guarded_witness :
    (collidePair sampleA sampleB).1.x
      = sampleA.x - (sampleA.radius + sampleB.radius) * 0.5 :=
  (C4_zero_distance_guarded sampleA sampleB (by norm_num [sampleA, sampleB])
    (by norm_num [sampleA, sampleB]) (by norm_num [sampleA]) (by norm_num [sampleB])
    (by norm_num [sampleA]) (by norm_num [sampleB])).2.1

lemma collideWith_length (i : ℕ) (rocks : List Rock) (j : ℕ) :
    (collideWith i rocks j).length = rocks.length := by
  unfold collideWith
  split
  · simp
  · rfl

lemma moveAt_length (w h : ℝ) (rocks : List Rock) (i : ℕ) :
    (moveAt w h rocks i).length = rocks.length := by
  unfold moveAt
  split
  · simp
  · rfl

lemma foldl_collideWith_length (i : ℕ) (l : List ℕ) (rocks : List Rock) :
    (l.foldl (collideWith i) rocks).length = rocks.length := by
  induction l generalizing rocks with
  | nil => rfl
  | cons j t ih => rw [List.foldl_cons, ih, collideWith_length]

lemma foldl_congr_invariant {α β : Type} (P : α → Prop) (f g : α → β → α)
    (hfg : ∀ a b, P a → f a b = g a b) (hP : ∀ a b, P a → P (f a b)) :
    ∀ (l : List β) (a : α), P a → l.foldl f a = l.foldl g a := by
  intro l
  induction l with
  | nil => intro a _; rfl
  | cons b t ih =>
    intro a ha
    rw [List.foldl_cons, List.foldl_cons, ← hfg a b ha]
    exact ih _ (hP a b ha)

lemma mem_pairsVisited (n i j : ℕ) :
    (i, j) ∈ pairsVisited n ↔ i < j ∧ j < n := by
  unfold pairsVisited pairsFor
  simp only [List.mem_flatMap, List.mem_map, List.mem_range, List.mem_range'_1,
    Prod.mk.injEq]
  constructor
  · rintro ⟨a, ha, j1, ⟨hj1, hj2⟩, rfl, rfl⟩
    omega
  · rintro ⟨hij, hjn⟩
    exact ⟨i, by omega, j, ⟨by omega, by omega⟩, rfl, rfl⟩

lemma pairsVisited_pairwise (n : ℕ) : (pairsVisited n).Pairwise pairLex := by
  unfold pairsVisited
  rw [List.pairwise_flatMap]
  constructor
  · intro a ha
    rw [List.pairwise_map]
    refine List.Pairwise.imp ?_ (List.pairwise_lt_range' _ _)
    intro x y hxy
    exact Or.inr ⟨rfl, hxy⟩
  · refine List.Pairwise.imp ?_ (List.pairwise_lt_range n)
    intro a b hab x hx y hy
    simp only [List.mem_map] at hx hy
    obtain ⟨j1, -, rfl⟩ := hx
    obtain ⟨j2, -, rfl⟩ := hy
    exact Or.inl hab

lemma pairsVisited_nodup (n : ℕ) : (pairsVisited n).Nodup := by
  refine List.Pairwise.imp ?_ (pairsVisited_pairwise n)
  intro p q hpq heq
  subst heq
  rcases hpq with hlt | ⟨-, hlt⟩ <;> exact lt_irrefl _ hlt

/-- Claim C6: within one frame, the nested collision loops visit exactly the
ordered pairs (i, j) with i < j < n, each exactly once, in ascending
(lexicographic) index order; updatePhysics is exactly the fold over this
visiting scheme. -/
theorem C6_pair_enumeration (w h : ℝ) (rocks : List Rock) (n i j : ℕ) :
    updatePhysics w h rocks
      = (List.range rocks.length).foldl
          (fun acc k => (pairsFor k rocks.length).foldl (collideWith k) (moveAt w h acc k))
          rocks ∧
    ((i, j) ∈ pairsVisited n ↔ i < j ∧ j < n) ∧
    (pairsVisited n).Nodup ∧
    (pairsVisited n).Pairwise pairLex := by
  refine ⟨?_, mem_pairsVisited n i j, pairsVisited_nodup n, pairsVisited_pairwise n⟩
  unfold updatePhysics
  refine foldl_congr_invariant (fun acc => acc.length = rocks.length) _ _
    ?_ ?_ (List.range rocks.length) rocks rfl
  · intro acc k ha
    show (pairsFor k (moveAt w h acc k).length).foldl (collideWith k) (moveAt w h acc k)
      = (pairsFor k rocks.length).foldl (collideWith k) (moveAt w h acc k)
    rw [moveAt_length, ha]
  · intro acc k ha
    show ((pairsFor k (moveAt w h acc k).length).foldl (collideWith k)
      (moveAt w h acc k)).length = rocks.length
    rw [foldl_collideWith_length, moveAt_length, ha]

/-- Counterexample for C9: two spawn calls in the same millisecond
(`Date.now()` equal) with equal `Math.random()` draws produce two rocks in
the collection with the same id. -/
theorem C9_duplicate_id_counterexample :
    (spawn 0 0 0 0 0 0 0 0 0 (spawn 0 0 0 0 0 0 0 0 0 initialState)).rocks.length = 2 ∧
    ((spawn 0 0 0 0 0 0 0 0 0 (spawn 0 0 0 0 0 0 0 0 0 initialState)).rocks.getD 0 default).id
      = ((spawn 0 0 0 0 0 0 0 0 0 (spawn 0 0 0 0 0 0 0 0 0 initialState)).rocks.getD 1 default).id :=
  ⟨rfl, rfl⟩

/-- Claim C9 (amended): the id assigned by createRock is exactly the draw
sum Date.now() + Math.random(), so any two spawns whose draw sums differ
produce rocks with distinct ids; ids are not guaranteed distinct otherwise. -/
theorem C9_distinct_draws_distinct_ids
    (n1 r01 r11 r21 r31 x1 y1 vx1 vy1 n2 r02 r12 r22 r32 x2 y2 vx2 vy2 : ℝ)
    (hne : n1 + r01 ≠ n2 + r02) :
    (createRock n1 r01 r11 r21 r31 x1 y1 vx1 vy1).id = n1 + r01 ∧
    (createRock n2 r02 r12 r22 r32 x2 y2 vx2 vy2).id = n2 + r02 ∧
    (createRock n1 r01 r11 r21 r31 x1 y1 vx1 vy1).id
      ≠ (createRock n2 r02 r12 r22 r32 x2 y2 vx2 vy2).id :=
  ⟨rfl, rfl, hne⟩

/-- Witness for C9 (amended) at concrete distinct draws. -/
theorem C9_distinct_draws_distinct_ids_witness :
    (createRock 0 0 0 0 0 0 0 0 0).id ≠ (createRock 1 0 0 0 0 0 0 0 0).id :=
  (C9_distinct_draws_distinct_ids 0 0 0 0 0 0 0 0 0 1 0 0 0 0 0 0 0 0
    (by norm_num)).2.2

/-- The single rock of the C7 scenario after forces and integration. -/
def sampleA1 : Rock :=
  ⟨1, 100, 100.4995, 0, 0.4995, 20, "#8B7355", 0, 0, 24, .granite⟩

lemma intA_eval : integrate (applyForces sampleA) = sampleA1 := by
  norm_num [integrate, applyForces, sampleA, sampleA1, gravity, airResistance]

lemma bounceLeft_sampleA1 : bounceLeft sampleA1 = sampleA1 := by
  norm_num [bounceLeft, sampleA1]

lemma bounceRight_sampleA1 : bounceRight 400 sampleA1 = sampleA1 := by
  norm_num [bounceRight, sampleA1]

lemma bounceTop_sampleA1 : bounceTop sampleA1 = sampleA1 := by
  norm_num [bounceTop, sampleA1]

lemma bounceBottom_sampleA1 : bounceBottom 400 sampleA1 = sampleA1 := by
  norm_num [bounceBottom, sampleA1]

lemma moveRock_sampleA : moveRock 400 400 sampleA = sampleA1 := by
  unfold moveRock
  rw [intA_eval, bounceLeft_sampleA1, bounceRight_sampleA1, bounceTop_sampleA1,
    bounceBottom_sampleA1]

lemma step_sampleA_eval :
    (step 400 400 { rocks := [sampleA], isPlaying := true }).rocks = [sampleA1] := by
  show updatePhysics 400 400 [sampleA] = [sampleA1]
  show [moveRock 400 400 sampleA] = [sampleA1]
  rw [moveRock_sampleA]

/-- Counterexample for C7: after one step of the spec's scenario the code
yields vy = 0.4995 and y = 100.4995, not vy = 0.5 and y = 100.5 (air
resistance is applied after gravity, before integration). -/
theorem C7_spec_values_counterexample :
    ¬ (((step 400 400 { rocks := [sampleA], isPlaying := true }).rocks.getD 0 default).vy
          = 0.5 ∧
        ((step 400 400 { rocks := [sampleA], isPlaying := true }).rocks.getD 0 default).y
          = 100.5) := by
  rw [step_sampleA_eval]
  intro hcon
  have h1 : sampleA1.vy = 0.5 := hcon.1
  norm_num [sampleA1] at h1

/-- Claim C7 (amended): for the single granite rock at (100,100) with zero
velocity and radius 20, one step on a 400 by 400 canvas yields
vy = 0.4995 = 0.5 times 0.999 and y = 100.4995, and no wall collision is
triggered (each wall phase is the identity on the integrated rock). -/
theorem C7_one_step_scenario :
    ((step 400 400 { rocks := [sampleA], isPlaying := true }).rocks.getD 0 default).vy
      = 0.4995 ∧
    ((step 400 400 { rocks := [sampleA], isPlaying := true }).rocks.getD 0 default).y
      = 100.4995 ∧
    (0.4995 : ℝ) = (0 + 0.5) * 0.999 ∧
    bounceLeft (integrate (applyForces sampleA)) = integrate (applyForces sampleA) ∧
    bounceRight 400 (integrate (applyForces sampleA)) = integrate (applyForces sampleA) ∧
    bounceTop (integrate (applyForces sampleA)) = integrate (applyForces sampleA) ∧
    bounceBottom 400 (integrate (applyForces sampleA)) = integrate (applyForces sampleA) := by
  rw [step_sampleA_eval, intA_eval]
  refine ⟨rfl, rfl, by norm_num, bounceLeft_sampleA1, bounceRight_sampleA1,
    bounceTop_sampleA1, bounceBottom_sampleA1⟩

lemma bounceLeft_radius (r : Rock) : (bounceLeft r).radius = r.radius := by
  unfold bounceLeft
  split_ifs <;> rfl

lemma bounceRight_radius (w : ℝ) (r : Rock) : (bounceRight w r).radius = r.radius := by
  unfold bounceRight
  split_ifs <;> rfl

lemma bounceTop_radius (r : Rock) : (bounceTop r).radius = r.radius := by
  unfold bounceTop
  split_ifs <;> rfl

lemma bounceBottom_radius (h : ℝ) (r : Rock) : (bounceBottom h r).radius = r.radius := by
  unfold bounceBottom
  split_ifs <;> rfl

lemma bounceTop_x (r : Rock) : (bounceTop r).x = r.x := by
  unfold bounceTop
  split_ifs <;> rfl

lemma bounceBottom_x (h : ℝ) (r : Rock) : (bounceBottom h r).x = r.x := by
  unfold bounceBottom
  split_ifs <;> rfl

lemma bounceLeft_y (r : Rock) : (bounceLeft r).y = r.y := by
  unfold bounceLeft
  split_ifs <;> rfl

lemma bounceRight_y (w : ℝ) (r : Rock) : (bounceRight w r).y = r.y := by
  unfold bounceRight
  split_ifs <;> rfl

lemma moveRock_radius (w h : ℝ) (r : Rock) : (moveRock w h r).radius = r.radius := by
  unfold moveRock
  rw [bounceBottom_radius, bounceTop_radius, bounceRight_radius, bounceLeft_radius]
  rfl

lemma bounceLeft_x_lower (r : Rock) : r.radius ≤ (bounceLeft r).x := by
  unfold bounceLeft
  split_ifs with hc
  · exact le_refl _
  · push_neg at hc
    linarith

lemma bounceRight_x_bounds (w : ℝ) (r : Rock) (hw : 2 * r.radius ≤ w)
    (hl : r.radius ≤ r.x) :
    r.radius ≤ (bounceRight w r).x ∧ (bounceRight w r).x ≤ w - r.radius := by
  unfold bounceRight
  split_ifs with hc
  · constructor <;> (simp only; linarith)
  · push_neg at hc
    exact ⟨hl, by linarith⟩

lemma bounceTop_y_lower (r : Rock) : r.radius ≤ (bounceTop r).y := by
  unfold bounceTop
  split_ifs with hc
  · exact le_refl _
  · push_neg at hc
    linarith

lemma bounceBottom_y_bounds (h : ℝ) (r : Rock) (hh : 2 * r.radius ≤ h)
    (hl : r.radius ≤ r.y) :
    r.radius ≤ (bounceBottom h r).y ∧ (bounceBottom h r).y ≤ h - r.radius := by
  unfold bounceBottom
  split_ifs with hc
  · constructor <;> (simp only; linarith)
  · push_neg at hc
    exact ⟨hl, by linarith⟩

lemma moveRock_bounds (w h : ℝ) (r : Rock) (hw : 2 * r.radius ≤ w)
    (hh : 2 * r.radius ≤ h) :
    r.radius ≤ (moveRock w h r).x ∧ (moveRock w h r).x ≤ w - r.radius ∧
    r.radius ≤ (moveRock w h r).y ∧ (moveRock w h r).y ≤ h - r.radius := by
  set q := integrate (applyForces r) with hq
  have hqrad : q.radius = r.radius := rfl
  have hx1 : q.radius ≤ (bounceLeft q).x := bounceLeft_x_lower q
  have hx2 := bounceRight_x_bounds w (bounceLeft q)
    (by rw [bounceLeft_radius, hqrad]; exact hw)
    (by rw [bounceLeft_radius]; exact hx1)
  rw [bounceLeft_radius, hqrad] at hx2
  set q2 := bounceRight w (bounceLeft q) with hq2
  have hq2rad : q2.radius = r.radius := by
    rw [hq2, bounceRight_radius, bounceLeft_radius, hqrad]
  have hy1 : q2.radius ≤ (bounceTop q2).y := bounceTop_y_lower q2
  have hy2 := bounceBottom_y_bounds h (bounceTop q2)
    (by rw [bounceTop_radius, hq2rad]; exact hh)
    (by rw [bounceTop_radius]; exact hy1)
  rw [bounceTop_radius, hq2rad] at hy2
  have hmv : moveRock w h r = bounceBottom h (bounceTop q2) := rfl
  rw [hmv, bounceBottom_x, bounceTop_x]
  exact ⟨hx2.1, hx2.2, hy2.1, hy2.2⟩

lemma step_singleton (w h : ℝ) (r : Rock) :
    step w h { rocks := [r], isPlaying := true }
      = { rocks := [moveRock w h r], isPlaying := true } := rfl

lemma iterate_step_singleton (w h : ℝ) (n : ℕ) (r : Rock) :
    (step w h)^[n] { rocks := [r], isPlaying := true }
      = { rocks := [(moveRock w h)^[n] r], isPlaying := true } := by
  induction n generalizing r with
  | zero => rfl
  | succ k ih =>
    rw [Function.iterate_succ_apply, Function.iterate_succ_apply,
      step_singleton]
    exact ih (moveRock w h r)

lemma iterate_moveRock_radius (w h : ℝ) (n : ℕ) (r : Rock) :
    ((moveRock w h)^[n] r).radius = r.radius := by
  induction n generalizing r with
  | zero => rfl
  | succ k ih =>
    rw [Function.iterate_succ_apply]
    rw [ih, moveRock_radius]

/-- Claim C1 (amended): for a simulation containing a single rock (so that
no pairwise collision can fire) on a canvas at least twice the rock's
radius in each dimension, after any positive number of steps the rock's
center satisfies radius ≤ x ≤ width - radius and radius ≤ y ≤ height - radius. -/
theorem C1_single_rock_bounds (w h : ℝ) (r : Rock) (hw : 2 * r.radius ≤ w)
    (hh : 2 * r.radius ≤ h) (n : ℕ) :
    ∀ q ∈ ((step w h)^[n + 1] { rocks := [r], isPlaying := true }).rocks,
      q.radius ≤ q.x ∧ q.x ≤ w - q.radius ∧ q.radius ≤ q.y ∧ q.y ≤ h - q.radius := by
  intro q hq
  rw [iterate_step_singleton] at hq
  simp only [List.mem_singleton] at hq
  subst hq
  rw [Function.iterate_succ_apply']
  set r1 := (moveRock w h)^[n] r with hr1
  have hrad : r1.radius = r.radius := iterate_moveRock_radius w h n r
  have hb := moveRock_bounds w h r1 (by rw [hrad]; exact hw) (by rw [hrad]; exact hh)
  rw [moveRock_radius, hrad]
  exact hb.imp (fun a => by rw [hrad] at a; exact a)
    (fun b => by rw [hrad] at b; exact b)

/-- Witness for C1 (amended) at the concrete scenario rock. -/
theorem C1_single_rock_bounds_witness :
    (moveRock 400 400 sampleA).radius ≤ (moveRock 400 400 sampleA).x ∧
    (moveRock 400 400 sampleA).x ≤ 400 - (moveRock 400 400 sampleA).radius ∧
    (moveRock 400 400 sampleA).radius ≤ (moveRock 400 400 sampleA).y ∧
    (moveRock 400 400 sampleA).y ≤ 400 - (moveRock 400 400 sampleA).radius := by
  have hmem : moveRock 400 400 sampleA
      ∈ ((step 400 400)^[0 + 1] { rocks := [sampleA], isPlaying := true }).rocks := by
    simp [iterate_step_singleton, step_singleton]
  exact C1_single_rock_bounds 400 400 sampleA (by norm_num [sampleA])
    (by norm_num [sampleA]) 0 (moveRock 400 400 sampleA) hmem

/-- A granite rock resting against the left wall of a 400 by 400 canvas. -/
def cexA : Rock :=
  ⟨3, 20, 100, 0, 0, 20, "#8B7355", 0, 0, 24, .granite⟩

/-- A granite rock overlapping cexA from the right, placed at the height
cexA reaches after its integration phase. -/
def cexB : Rock :=
  ⟨4, 50, 100.4995, 0, 0, 20, "#8B7355", 0, 0, 24, .granite⟩

/-- cexA after its single-body phase: it did not touch any wall. -/
def cexA1 : Rock :=
  ⟨3, 20, 100.4995, 0, 0.4995, 20, "#8B7355", 0, 0, 24, .granite⟩

lemma updatePhysics_two (w h : ℝ) (a b : Rock) :
    updatePhysics w h [a, b]
      = [(collidePair (moveRock w h a) b).1,
         moveRock w h (collidePair (moveRock w h a) b).2] := rfl

lemma moveRock_cexA : moveRock 400 400 cexA = cexA1 := by
  have h0 : integrate (applyForces cexA) = cexA1 := by
    norm_num [integrate, applyForces, cexA, cexA1, gravity, airResistance]
  unfold moveRock
  rw [h0]
  norm_num [bounceLeft, bounceRight, bounceTop, bounceBottom, cexA1]

lemma sqrt_900 : Real.sqrt 900 = 30 := by
  rw [show (900 : ℝ) = 30 ^ 2 by norm_num]
  exact Real.sqrt_sq (by norm_num)

lemma cex_overlap :
    Real.sqrt ((cexB.x - cexA1.x) * (cexB.x - cexA1.x)
        + (cexB.y - cexA1.y) * (cexB.y - cexA1.y))
      < cexA1.radius + cexB.radius := by
  norm_num [cexA1, cexB, sqrt_900]

lemma collide_cex_first :
    (collidePair cexA1 cexB).1.x = 15 ∧ (collidePair cexA1 cexB).1.radius = 20 := by
  rw [collidePair_of_overlap cexA1 cexB cex_overlap]
  constructor
  · rw [show cexB.y - cexA1.y = (0 : ℝ) by norm_num [cexB, cexA1],
      show cexB.x - cexA1.x = (30 : ℝ) by norm_num [cexB, cexA1],
      atan2_zero_of_nonneg 30 (by norm_num), Real.cos_zero]
    norm_num [cexA1, cexB, sqrt_900]
  · rfl

/-- Counterexample for C1: on a 400 by 400 canvas (at least twice every
radius) with both rocks initially inside bounds, one step pushes rock 0 to
x = 15, strictly below its radius 20: the pairwise separation runs after
rock 0's wall clamp and can move it back out of bounds. -/
theorem C1_escape_counterexample :
    2 * cexA.radius ≤ (400 : ℝ) ∧ 2 * cexB.radius ≤ (400 : ℝ) ∧
    cexA.radius ≤ cexA.x ∧ cexA.x ≤ 400 - cexA.radius ∧
    cexA.radius ≤ cexA.y ∧ cexA.y ≤ 400 - cexA.radius ∧
    cexB.radius ≤ cexB.x ∧ cexB.x ≤ 400 - cexB.radius ∧
    cexB.radius ≤ cexB.y ∧ cexB.y ≤ 400 - cexB.radius ∧
    ((step 400 400 { rocks := [cexA, cexB], isPlaying := true }).rocks.getD 0 default).x
      < ((step 400 400 { rocks := [cexA, cexB], isPlaying := true }).rocks.getD 0 default).radius := by
  have hstep : (step 400 400 { rocks := [cexA, cexB], isPlaying := true }).rocks
      = updatePhysics 400 400 [cexA, cexB] := rfl
  refine ⟨by norm_num [cexA], by norm_num [cexB], by norm_num [cexA], by norm_num [cexA],
    by norm_num [cexA], by norm_num [cexA], by norm_num [cexB], by norm_num [cexB],
    by norm_num [cexB], by norm_num [cexB], ?_⟩
  rw [hstep, updatePhysics_two, moveRock_cexA]
  rw [List.getD_cons_zero]
  rw [collide_cex_first.1, collide_cex_first.2]
  norm_num

end RockSim
